import Mathlib

/-!
Shallow embedding of the GSlides-to-Figma import pipeline (the TypeScript
module variant with the fit-to-canvas scale, `src/unnamed/part_000`
lines 540-1120), together with theorems settling the frozen claims.

JavaScript numbers are modelled as rationals; host effects (font loading,
image decoding, square root and arctangent from the Math library) are
modelled as oracle functions carried in an environment record. Node
creation and appending is modelled by returning the list of nodes appended
to the parent container, paired with an optional error representing a
thrown exception.
-/

/-- A font family / style pair, mirroring the Figma FontName object. -/
structure FontName where
  family : String
  style : String
deriving DecidableEq, Repr

/-- An RGB color with components in [0,1], mirroring the ColorRGB interface. -/
structure ColorRGB where
  r : ℚ
  g : ℚ
  b : ℚ
deriving DecidableEq, Repr

/-- The static FONT_FALLBACKS mapping from the source, as an optional-valued map. -/
def FONT_FALLBACKS (family : String) : Option String :=
  if family = "Arial" then some "Inter"
  else if family = "Helvetica" then some "Inter"
  else if family = "Roboto" then some "Inter"
  else if family = "Open Sans" then some "Inter"
  else if family = "Lato" then some "Inter"
  else if family = "Montserrat" then some "Inter"
  else if family = "Source Sans Pro" then some "Inter"
  else if family = "Nunito" then some "Inter"
  else if family = "Poppins" then some "Inter"
  else if family = "Times New Roman" then some "Georgia"
  else if family = "Georgia" then some "Georgia"
  else if family = "Playfair Display" then some "Georgia"
  else if family = "Merriweather" then some "Georgia"
  else if family = "Lora" then some "Georgia"
  else if family = "Courier New" then some "Roboto Mono"
  else if family = "Consolas" then some "Roboto Mono"
  else if family = "Monaco" then some "Roboto Mono"
  else if family = "Source Code Pro" then some "Roboto Mono"
  else none

/-- Whether the first character list occurs contiguously inside the second. -/
def containsSeq (needle : List Char) : List Char → Bool
  | [] => needle.isEmpty
  | c :: rest => needle.isPrefixOf (c :: rest) || containsSeq needle rest

/-- Case-insensitive substring test, modelling a JS regex alternation of
plain lowercase keywords tested with the i flag. -/
def containsKeyword (family keyword : String) : Bool :=
  containsSeq keyword.data (family.data.map Char.toLower)

/-- The serif-category regex test from loadFont. -/
def isSerifFamily (family : String) : Bool :=
  containsKeyword family "serif" || containsKeyword family "georgia" ||
  containsKeyword family "times" || containsKeyword family "garamond" ||
  containsKeyword family "palatino"

/-- The monospace-category regex test from loadFont. -/
def isMonoFamily (family : String) : Bool :=
  containsKeyword family "mono" || containsKeyword family "courier" ||
  containsKeyword family "consolas" || containsKeyword family "code"

/-- The category-based generic fallback candidate list from loadFont. -/
def fallbackCandidates (family : String) : List String :=
  if isMonoFamily family then ["Roboto Mono", "Courier New"]
  else if isSerifFamily family then ["Georgia", "Times New Roman"]
  else ["Inter", "Roboto", "Arial"]

/-- Style derivation at the top of loadFont: weight and italic to a style name. -/
def fontStyle (fontWeight : ℚ) (isItalic : Bool) : String :=
  if 700 ≤ fontWeight ∧ isItalic = true then "Bold Italic"
  else if 700 ≤ fontWeight then "Bold"
  else if isItalic then "Italic"
  else "Regular"

/-- The weight-only style used by the drop-italic fallback attempts. -/
def weightStyle (fontWeight : ℚ) : String :=
  if 700 ≤ fontWeight then "Bold" else "Regular"

/-- The for-loop over the category fallback list in loadFont: each candidate
is tried at the full style, then (when italic) at the weight-only style. -/
def tryCandidates (loads : FontName → Bool) (style wStyle : String)
    (isItalic : Bool) : List String → Option FontName
  | [] => none
  | fb :: rest =>
    if loads ⟨fb, style⟩ then some ⟨fb, style⟩
    else if isItalic && loads ⟨fb, wStyle⟩ then some ⟨fb, wStyle⟩
    else tryCandidates loads style wStyle isItalic rest

/-- loadFont from the source: the full resolution ladder. The oracle `loads`
models whether an asynchronous figma.loadFontAsync call for a given font
succeeds. The result is some font on success; none models the final
absolute-last-resort attempt (Arial Regular) throwing to the caller. -/
def loadFont (loads : FontName → Bool) (fontFamily : String)
    (fontWeight : ℚ) (isItalic : Bool) : Option FontName :=
  let style := fontStyle fontWeight isItalic
  if loads ⟨fontFamily, style⟩ then some ⟨fontFamily, style⟩
  else
    let step2 : Option FontName :=
      if isItalic then
        let fallbackStyle := weightStyle fontWeight
        if loads ⟨fontFamily, fallbackStyle⟩ then some ⟨fontFamily, fallbackStyle⟩
        else none
      else none
    match step2 with
    | some f => some f
    | none =>
      let step3 : Option FontName :=
        match FONT_FALLBACKS fontFamily with
        | some fallbackFamily =>
          if loads ⟨fallbackFamily, style⟩ then some ⟨fallbackFamily, style⟩
          else if isItalic then
            let fallbackStyle := weightStyle fontWeight
            if loads ⟨fallbackFamily, fallbackStyle⟩ then
              some ⟨fallbackFamily, fallbackStyle⟩
            else none
          else none
        | none => none
      match step3 with
      | some f => some f
      | none =>
        match tryCandidates loads style (weightStyle fontWeight) isItalic
            (fallbackCandidates fontFamily) with
        | some f => some f
        | none =>
          if loads ⟨"Inter", "Regular"⟩ then some ⟨"Inter", "Regular"⟩
          else if loads ⟨"Arial", "Regular"⟩ then some ⟨"Arial", "Regular"⟩
          else none

/-- The flat list of font-load attempts made by loadFont, in order. -/
def loadAttempts (fontFamily : String) (fontWeight : ℚ) (isItalic : Bool) :
    List FontName :=
  let style := fontStyle fontWeight isItalic
  let ws := weightStyle fontWeight
  [⟨fontFamily, style⟩]
    ++ (if isItalic then [⟨fontFamily, ws⟩] else [])
    ++ (match FONT_FALLBACKS fontFamily with
        | some fb => [(⟨fb, style⟩ : FontName)] ++ (if isItalic then [⟨fb, ws⟩] else [])
        | none => [])
    ++ (fallbackCandidates fontFamily).flatMap
        (fun fb => [(⟨fb, style⟩ : FontName)] ++ (if isItalic then [⟨fb, ws⟩] else []))
    ++ [⟨"Inter", "Regular"⟩, ⟨"Arial", "Regular"⟩]

theorem tryCandidates_eq_find? (loads : FontName → Bool) (style ws : String)
    (isItalic : Bool) (l : List String) :
    tryCandidates loads style ws isItalic l
      = (l.flatMap
          (fun fb => [(⟨fb, style⟩ : FontName)] ++ (if isItalic then [⟨fb, ws⟩] else []))).find?
          loads := by
  induction l with
  | nil => rfl
  | cons fb rest ih =>
    simp only [tryCandidates, List.flatMap_cons, List.find?_append]
    cases h1 : loads ⟨fb, style⟩ with
    | true => simp [List.find?, h1]
    | false =>
      cases isItalic with
      | false => simpa [List.find?, h1] using ih
      | true =>
        cases h2 : loads ⟨fb, ws⟩ with
        | true => simp [List.find?, h1, h2]
        | false => simpa [List.find?, h1, h2] using ih

theorem loadFont_eq_find? (loads : FontName → Bool) (fontFamily : String)
    (fontWeight : ℚ) (isItalic : Bool) :
    loadFont loads fontFamily fontWeight isItalic
      = (loadAttempts fontFamily fontWeight isItalic).find? loads := by
  unfold loadFont loadAttempts
  simp only [List.find?_append, ← tryCandidates_eq_find?]
  cases h1 : loads ⟨fontFamily, fontStyle fontWeight isItalic⟩ with
  | true => simp [h1]
  | false =>
    cases isItalic with
    | false =>
      cases hfb : FONT_FALLBACKS fontFamily with
      | none =>
        cases htc : tryCandidates loads (fontStyle fontWeight false)
            (weightStyle fontWeight) false (fallbackCandidates fontFamily) with
        | some f => simp [h1, hfb, htc]
        | none =>
          cases h5 : loads ⟨"Inter", "Regular"⟩ with
          | true => simp [h1, hfb, htc, h5]
          | false =>
            cases h6 : loads ⟨"Arial", "Regular"⟩ with
            | true => simp [h1, hfb, htc, h5, h6]
            | false => simp [h1, hfb, htc, h5, h6]
      | some fb =>
        cases h3 : loads ⟨fb, fontStyle fontWeight false⟩ with
        | true => simp [h1, hfb, h3]
        | false =>
          cases htc : tryCandidates loads (fontStyle fontWeight false)
              (weightStyle fontWeight) false (fallbackCandidates fontFamily) with
          | some f => simp [h1, hfb, h3, htc]
          | none =>
            cases h5 : loads ⟨"Inter", "Regular"⟩ with
            | true => simp [h1, hfb, h3, htc, h5]
            | false =>
              cases h6 : loads ⟨"Arial", "Regular"⟩ with
              | true => simp [h1, hfb, h3, htc, h5, h6]
              | false => simp [h1, hfb, h3, htc, h5, h6]
    | true =>
      cases h2 : loads ⟨fontFamily, weightStyle fontWeight⟩ with
      | true => simp [h1, h2]
      | false =>
        cases hfb : FONT_FALLBACKS fontFamily with
        | none =>
          cases htc : tryCandidates loads (fontStyle fontWeight true)
              (weightStyle fontWeight) true (fallbackCandidates fontFamily) with
          | some f => simp [h1, h2, hfb, htc]
          | none =>
            cases h5 : loads ⟨"Inter", "Regular"⟩ with
            | true => simp [h1, h2, hfb, htc, h5]
            | false =>
              cases h6 : loads ⟨"Arial", "Regular"⟩ with
              | true => simp [h1, h2, hfb, htc, h5, h6]
              | false => simp [h1, h2, hfb, htc, h5, h6]
        | some fb =>
          cases h3 : loads ⟨fb, fontStyle fontWeight true⟩ with
          | true => simp [h1, h2, hfb, h3]
          | false =>
            cases h4 : loads ⟨fb, weightStyle fontWeight⟩ with
            | true => simp [h1, h2, hfb, h3, h4]
            | false =>
              cases htc : tryCandidates loads (fontStyle fontWeight true)
                  (weightStyle fontWeight) true (fallbackCandidates fontFamily) with
              | some f => simp [h1, h2, hfb, h3, h4, htc]
              | none =>
                cases h5 : loads ⟨"Inter", "Regular"⟩ with
                | true => simp [h1, h2, hfb, h3, h4, htc, h5]
                | false =>
                  cases h6 : loads ⟨"Arial", "Regular"⟩ with
                  | true => simp [h1, h2, hfb, h3, h4, htc, h5, h6]
                  | false => simp [h1, h2, hfb, h3, h4, htc, h5, h6]

/-- Claim C2: for every requested family, weight and italic flag, loadFont
returns exactly the first successful attempt of its fixed resolution ladder
(so any successful attempt means a font is returned without raising), the
ladder has at most 12 attempts, and an error propagates to the caller only
when the final Arial Regular attempt fails after Inter Regular also failed. -/
theorem loadFont_resolution_ladder (loads : FontName → Bool) (fontFamily : String)
    (fontWeight : ℚ) (isItalic : Bool) :
    loadFont loads fontFamily fontWeight isItalic
      = (loadAttempts fontFamily fontWeight isItalic).find? loads
    ∧ (loadAttempts fontFamily fontWeight isItalic).length ≤ 12
    ∧ (loadFont loads fontFamily fontWeight isItalic = none →
        loads ⟨"Inter", "Regular"⟩ = false ∧ loads ⟨"Arial", "Regular"⟩ = false) := by
  refine ⟨loadFont_eq_find? loads fontFamily fontWeight isItalic, ?_, ?_⟩
  · unfold loadAttempts fallbackCandidates
    cases isItalic <;> cases hfb : FONT_FALLBACKS fontFamily <;>
      by_cases hm : isMonoFamily fontFamily <;>
        by_cases hsf : isSerifFamily fontFamily <;>
          simp [hfb, hm, hsf]
  · intro hnone
    rw [loadFont_eq_find? loads fontFamily fontWeight isItalic,
      List.find?_eq_none] at hnone
    constructor
    · simpa using hnone ⟨"Inter", "Regular"⟩ (by simp [loadAttempts])
    · simpa using hnone ⟨"Arial", "Regular"⟩ (by simp [loadAttempts])

/-- Closed witness for claim C2: with a host where no font loads at all,
loadFont reports failure and indeed both last-resort fonts were unloadable. -/
theorem loadFont_resolution_ladder_witness :
    (fun _ : FontName => false) ⟨"Inter", "Regular"⟩ = false
      ∧ (fun _ : FontName => false) ⟨"Arial", "Regular"⟩ = false :=
  (loadFont_resolution_ladder (fun _ => false) "Roboto" 400 false).2.2 (by rfl)

/-- Claim C3: the requested style is Bold Italic when weight ≥ 700 and italic,
Bold when only weight ≥ 700, Italic when only italic, else Regular; when the
exact family loads at that style the resolver returns it unchanged, and in
particular for Roboto at weight 800 non-italic, if Roboto Bold fails but
Inter Bold loads, the resolver returns Inter Bold. -/
theorem loadFont_style_consistency (loads : FontName → Bool) (fontFamily : String)
    (fontWeight : ℚ) (isItalic : Bool) :
    fontStyle fontWeight isItalic
      = (if 700 ≤ fontWeight then (if isItalic then "Bold Italic" else "Bold")
         else (if isItalic then "Italic" else "Regular"))
    ∧ (loads ⟨fontFamily, fontStyle fontWeight isItalic⟩ = true →
        loadFont loads fontFamily fontWeight isItalic
          = some ⟨fontFamily, fontStyle fontWeight isItalic⟩)
    ∧ (loads ⟨"Roboto", "Bold"⟩ = false → loads ⟨"Inter", "Bold"⟩ = true →
        loadFont loads "Roboto" 800 false = some ⟨"Inter", "Bold"⟩) := by
  refine ⟨?_, ?_, ?_⟩
  · unfold fontStyle
    by_cases h : 700 ≤ fontWeight <;> cases isItalic <;> simp [h]
  · intro h
    unfold loadFont
    simp [h]
  · intro h1 h2
    unfold loadFont
    simp only [show fontStyle 800 false = "Bold" from rfl,
      show FONT_FALLBACKS "Roboto" = some "Inter" from rfl, h1, h2]
    simp

/-- Closed witness for claim C3: a host with exactly Inter Bold available
resolves (Roboto, 800, non-italic) to Inter Bold. -/
theorem loadFont_style_consistency_witness :
    loadFont (fun f => decide (f = ⟨"Inter", "Bold"⟩)) "Roboto" 800 false
      = some ⟨"Inter", "Bold"⟩ :=
  (loadFont_style_consistency (fun f => decide (f = ⟨"Inter", "Bold"⟩))
    "Roboto" 800 false).2.2 (by rfl) (by rfl)

/-- One run of styled text, mirroring the TextRun interface. -/
structure TextRun where
  text : String
  fontFamily : String := ""
  fontSize : ℚ := 0
  fontWeight : ℚ := 0
  fontStyle : String := ""
  color : ColorRGB := ⟨0, 0, 0⟩
  underline : Bool := false
  strikethrough : Bool := false
deriving DecidableEq, Repr

/-- Text attached to a shape, mirroring the TextContent interface. -/
structure TextContent where
  runs : List TextRun
  alignment : Option String := none
deriving DecidableEq, Repr

/-- The scalar fields shared by every slide element, mirroring the
SlideElement interface minus the recursive children field. -/
structure ElemProps where
  etype : String
  x : ℚ := 0
  y : ℚ := 0
  width : ℚ := 0
  height : ℚ := 0
  scaleX : ℚ := 1
  scaleY : ℚ := 1
  rotation : ℚ := 0
  shapeType : Option String := none
  fillColor : Option ColorRGB := none
  strokeColor : Option ColorRGB := none
  strokeWeight : Option ℚ := none
  text : Option TextContent := none
  imageUrl : Option String := none
  rows : Option (List (List String)) := none
  rowCount : Option ℚ := none
  columnCount : Option ℚ := none
deriving DecidableEq, Repr

/-- A slide element: its scalar properties plus its group children. An
absent or empty children field behaves identically in the source (the
group materializer returns on both), so both are modelled by []. -/
inductive SlideElement where
  | mk (props : ElemProps) (children : List SlideElement)

/-- The scalar properties of an element. -/
def SlideElement.props : SlideElement → ElemProps
  | .mk p _ => p

/-- The group children of an element. -/
def SlideElement.children : SlideElement → List SlideElement
  | .mk _ cs => cs

/-- The kinds of scene-graph nodes the pipeline creates. -/
inductive NodeKind where
  | rect
  | ellipse
  | line
  | text
  | frame
deriving DecidableEq, Repr

/-- A fill or stroke paint. -/
inductive Paint where
  | solid (color : ColorRGB)
  | imageFill (payload : String)
deriving DecidableEq, Repr

/-- Per-character-range styling recorded by the text run loop. -/
structure RangeStyle where
  start : ℕ
  stop : ℕ
  font : FontName
  fontSize : ℚ
  fill : ColorRGB
  underline : Bool := false
  strikethrough : Bool := false
deriving DecidableEq, Repr

/-- The scalar fields of a created node. -/
structure NodeProps where
  kind : NodeKind
  name : String := ""
  x : ℚ := 0
  y : ℚ := 0
  width : ℚ := 0
  height : ℚ := 0
  rotation : ℚ := 0
  fills : List Paint := []
  strokes : List Paint := []
  strokeWeight : ℚ := 1
  cornerRadius : ℚ := 0
  characters : String := ""
  fontName : FontName := ⟨"", ""⟩
  fontSize : ℚ := 0
  textAlignHorizontal : String := ""
  textAlignVertical : String := ""
  textAutoResize : String := ""
  ranges : List RangeStyle := []
deriving DecidableEq, Repr

/-- A created scene-graph node: scalar properties plus children (for frames). -/
inductive Node where
  | mk (props : NodeProps) (children : List Node)

/-- The scalar properties of a node. -/
def Node.props : Node → NodeProps
  | .mk p _ => p

/-- The children of a node. -/
def Node.children : Node → List Node
  | .mk _ cs => cs

/-- The host environment: oracles for the fallible or non-rational host
calls. `loads` models figma.loadFontAsync succeeding; `imageData` is the
pre-fetched URL-to-payload mapping; `imageOk` models base64Decode plus
figma.createImage succeeding on a payload; `sqrtQ` and `atan2Q` model the
Math library calls used by the line materializer. -/
structure Env where
  loads : FontName → Bool
  imageData : String → Option String
  imageOk : String → Bool
  sqrtQ : ℚ → ℚ
  atan2Q : ℚ → ℚ → ℚ

/-- JS truthiness for an optional string: undefined and "" are falsy. -/
def orString (v : Option String) (d : String) : String :=
  match v with
  | some s => if s = "" then d else s
  | none => d

/-- JS truthiness for an optional number: undefined and 0 are falsy. -/
def orQ (v : Option ℚ) (d : ℚ) : ℚ :=
  match v with
  | some q => if q = 0 then d else q
  | none => d

/-- JS truthiness for a plain number: 0 is falsy. -/
def numOr (v d : ℚ) : ℚ := if v = 0 then d else v

/-- The whitespace class trimmed by the JS String trim method (ASCII
whitespace, NBSP, BOM and the Unicode line separators; the exotic Zs code
points are not needed by any input considered here). -/
def isJsWhitespace (c : Char) : Bool :=
  c = ' ' || c = '\t' || c = '\n' || c = '\r' ||
  c = Char.ofNat 0x0b || c = Char.ofNat 0x0c || c = Char.ofNat 0xa0 ||
  c = Char.ofNat 0x2028 || c = Char.ofNat 0x2029 || c = Char.ofNat 0xfeff

/-- The JS String trim method, on the character list representation. -/
def jsTrim (s : String) : String :=
  ⟨((s.data.dropWhile isJsWhitespace).reverse.dropWhile isJsWhitespace).reverse⟩

/-- The result of appending nodes to a parent, with an optional thrown error. -/
abbrev BuildResult := List Node × Option String

/-- The data-URI match from createImage: the JS regex
^data:([^;]+);base64,(.+)$ succeeds exactly when the string is
"data:" ++ mime ++ ";base64," ++ payload with mime a nonempty run of
non-semicolon characters ending at the first semicolon, and payload
nonempty and free of line terminators (the dot does not match them). -/
def parseDataUri (s : String) : Option (String × String) :=
  let cs := s.data
  if cs.take 5 = "data:".data then
    let rest := cs.drop 5
    let mime := rest.takeWhile (fun c => c ≠ ';')
    let after := rest.dropWhile (fun c => c ≠ ';')
    if mime.length > 0 ∧ after.take 8 = ";base64,".data then
      let payload := after.drop 8
      if payload.length > 0 ∧ payload.all (fun c =>
          c ≠ '\n' ∧ c ≠ '\r' ∧ c ≠ Char.ofNat 0x2028 ∧ c ≠ Char.ofNat 0x2029) then
        some (⟨mime⟩, ⟨payload⟩)
      else none
    else none
  else none

/-- The neutral gray placeholder rectangle created when an image cannot be
materialized. -/
def placeholderNode (x y width height : ℚ) (name : String) : Node :=
  .mk { kind := .rect, x := x, y := y, width := width, height := height,
        fills := [Paint.solid ⟨9/10, 9/10, 9/10⟩], name := name } []

/-- createImage from the source: looks up pre-fetched bytes by URL key and
creates an image-filled rectangle, degrading to a placeholder when the key
is missing, the payload is malformed, or decoding fails. -/
def createImage (env : Env) (element : ElemProps) (x y width height : ℚ) :
    BuildResult :=
  match element.imageUrl with
  | none => ([], none)
  | some imageUrl =>
    if imageUrl = "" then ([], none)
    else
      match (match env.imageData imageUrl with
             | some d => if d = "" then none else some d
             | none => none) with
      | none => ([placeholderNode x y width height "Image (failed to load)"], none)
      | some base64Data =>
        match parseDataUri base64Data with
        | none => ([placeholderNode x y width height "Image (error)"], none)
        | some (_mime, base64Content) =>
          if env.imageOk base64Content then
            ([.mk { kind := .rect, x := x, y := y, width := width, height := height,
                    fills := [Paint.imageFill base64Content], name := "Image",
                    rotation := if element.rotation ≠ 0 then -element.rotation else 0 }
                []], none)
          else ([placeholderNode x y width height "Image (error)"], none)

/-- Math.PI as the exact rational value of its float64 representation. -/
def mathPI : ℚ := 884279719003555 / 281474976710656

/-- createLine from the source. -/
def createLine (env : Env) (element : ElemProps) (x y width height : ℚ) :
    List Node :=
  let lineLength := env.sqrtQ (width * width + height * height)
  [.mk { kind := .line, x := x, y := y, width := lineLength, height := 0,
         rotation := if width ≠ 0 ∨ height ≠ 0 then
             -(env.atan2Q height width * (180 / mathPI))
           else 0,
         strokes := match element.strokeColor with
           | some c => [Paint.solid c]
           | none => [],
         strokeWeight := orQ element.strokeWeight 1 } []]

/-- The cell text lookup rows[row]?.[col] || '' from createTable. -/
def cellAt (rows : List (List String)) (row col : ℕ) : String :=
  match (rows[row]?).bind (fun r => r[col]?) with
  | some t => t
  | none => ""

/-- createTable from the source: row and column counts come from the grid
shape, the bounding box is partitioned uniformly, each cell gets a bordered
white rectangle and, when its trimmed text is nonempty, a small text node. -/
def createTable (env : Env) (element : ElemProps) (x y width height scale : ℚ) :
    BuildResult :=
  let rows := match element.rows with | some r => r | none => []
  let rowCount : ℕ := rows.length
  let colCount : ℕ := match rows.head? with | some r => r.length | none => 0
  if rowCount = 0 ∨ colCount = 0 then ([], none)
  else
    let cellWidth := width / (colCount : ℚ)
    let cellHeight := height / (rowCount : ℚ)
    match loadFont env.loads "Arial" 400 false with
    | none => ([], some "Failed to load font")
    | some fontName =>
      let fontSize : ℚ := 10
      let padding := 4 * scale
      let cells := (List.range rowCount).flatMap (fun row =>
        (List.range colCount).flatMap (fun col =>
          let cellText := cellAt rows row col
          Node.mk { kind := .rect,
                    x := (col : ℚ) * cellWidth, y := (row : ℚ) * cellHeight,
                    width := cellWidth, height := cellHeight,
                    fills := [Paint.solid ⟨1, 1, 1⟩],
                    strokes := [Paint.solid ⟨8/10, 8/10, 8/10⟩],
                    strokeWeight := max 1 scale } []
            :: (if jsTrim cellText ≠ "" then
                  [Node.mk { kind := .text, fontName := fontName,
                             characters := cellText, fontSize := fontSize,
                             x := (col : ℚ) * cellWidth + padding,
                             y := (row : ℚ) * cellHeight + padding,
                             width := cellWidth - padding * 2,
                             height := cellHeight - padding * 2,
                             textAutoResize := "TRUNCATE" } []]
                else [])))
      ([.mk { kind := .frame, name := "Table", x := x, y := y,
              width := width, height := height, fills := [] } cells], none)

/-- The text alignment switch at the end of createTextForShape. -/
def alignHorizontal (alignment : Option String) : String :=
  let al := orString alignment "START"
  if al = "CENTER" then "CENTER"
  else if al = "END" then "RIGHT"
  else if al = "JUSTIFIED" then "JUSTIFIED"
  else "LEFT"

/-- The per-run formatting loop of createTextForShape: walks the runs with a
running character offset; zero-length runs are skipped; a font-load failure
inside the per-run try block is caught, so that run contributes no styling
but the offset still advances. -/
def styleRuns (env : Env) (scale : ℚ) : List TextRun → ℕ → List RangeStyle
  | [], _ => []
  | run :: rest, charIndex =>
    let runLength := run.text.length
    if runLength = 0 then styleRuns env scale rest charIndex
    else
      let startIndex := charIndex
      let endIndex := charIndex + runLength
      let entry : List RangeStyle :=
        match loadFont env.loads run.fontFamily run.fontWeight
            (run.fontStyle = "italic") with
        | none => []
        | some fn =>
          [{ start := startIndex, stop := endIndex, font := fn,
             fontSize := max 1 ((round (numOr run.fontSize 14 * scale) : ℤ) : ℚ),
             fill := run.color,
             underline := run.underline, strikethrough := run.strikethrough }]
      entry ++ styleRuns env scale rest endIndex

/-- createTextForShape from the source. Returns without creating a node when
there is no text, no runs, or the concatenated runs trim to the empty
string; throws (error result) when the default font for the first run
cannot be resolved at all. The fontsToLoad set built at the top of the
source function is dead (never read) and is omitted. -/
def createTextForShape (env : Env) (element : ElemProps)
    (x y width height scale : ℚ) : BuildResult :=
  match element.text with
  | none => ([], none)
  | some text =>
    match text.runs with
    | [] => ([], none)
    | firstRun :: _ =>
      let fullText := String.join (text.runs.map TextRun.text)
      if jsTrim fullText = "" then ([], none)
      else
        match loadFont env.loads firstRun.fontFamily firstRun.fontWeight
            (firstRun.fontStyle = "italic") with
        | none => ([], some "Failed to load font")
        | some defaultFont =>
          let scaledFontSize := round (numOr firstRun.fontSize 14 * scale)
          let padding := 4 * scale
          ([.mk { kind := .text,
                  x := x + padding, y := y + padding,
                  width := max 1 (width - padding * 2),
                  height := max 1 (height - padding * 2),
                  fontName := defaultFont, characters := fullText,
                  fontSize := max 1 ((scaledFontSize : ℤ) : ℚ),
                  ranges := styleRuns env scale text.runs 0,
                  textAlignHorizontal := alignHorizontal text.alignment,
                  textAlignVertical := "CENTER",
                  textAutoResize := "NONE",
                  rotation := if element.rotation ≠ 0 then -element.rotation
                    else 0 } []], none)

/-- createShape from the source: builds the rectangle, ellipse or rounded
rectangle, applies fill, stroke and rotation, appends it, and then
materializes the attached text when present and nonempty. -/
def createShape (env : Env) (element : ElemProps)
    (x y width height scale : ℚ) : BuildResult :=
  let shapeType := orString element.shapeType "RECTANGLE"
  let node : Node :=
    .mk { kind := if shapeType = "ELLIPSE" then .ellipse else .rect,
          x := x, y := y, width := width, height := height,
          cornerRadius := if shapeType = "ROUND_RECTANGLE" then
              min width height * (1/10)
            else 0,
          fills := match element.fillColor with
            | some c => [Paint.solid c]
            | none => [],
          strokes := match element.strokeColor, element.strokeWeight with
            | some sc, some sw => if sw = 0 then [] else [Paint.solid sc]
            | _, _ => [],
          strokeWeight := match element.strokeColor, element.strokeWeight with
            | some _, some sw => if sw = 0 then 1 else sw
            | _, _ => 1,
          rotation := if element.rotation ≠ 0 then -element.rotation else 0 } []
  let hasText := match element.text with
    | some text => decide (0 < text.runs.length)
    | none => false
  if hasText then
    match createTextForShape env element x y width height scale with
    | (textNodes, err) => (node :: textNodes, err)
  else ([node], none)

/-- The effective width computed at the top of createElement:
Math.max(1, element.width * Math.abs(element.scaleX) * scale). -/
def effWidth (p : ElemProps) (scale : ℚ) : ℚ :=
  max 1 (p.width * |p.scaleX| * scale)

/-- The effective height computed at the top of createElement:
Math.max(1, element.height * Math.abs(element.scaleY) * scale). -/
def effHeight (p : ElemProps) (scale : ℚ) : ℚ :=
  max 1 (p.height * |p.scaleY| * scale)

mutual

/-- createElement from the source, with the element x and y fields passed
separately (the group materializer overrides them for its children):
computes the clamped scaled dimensions and the scaled position, then
dispatches on the element type. -/
def createElementAt (env : Env) : SlideElement → ℚ → ℚ → ℚ → BuildResult
  | .mk p cs, ex, ey, scale =>
    let width := effWidth p scale
    let height := effHeight p scale
    let x := ex * scale
    let y := ey * scale
    if p.etype = "shape" then createShape env p x y width height scale
    else if p.etype = "image" then createImage env p x y width height
    else if p.etype = "line" then (createLine env p x y width height, none)
    else if p.etype = "table" then createTable env p x y width height scale
    else if p.etype = "group" then
      if cs.isEmpty then ([], none)
      else createGroupChildren env x y scale cs
    else ([], none)

/-- The loop of createGroup: each child is re-dispatched at the group
unscaled origin plus its own local offset (the scaled group position is
divided by the scale factor before adding the child offset). A child that
throws aborts the remaining siblings of that group, keeping the nodes
already appended. -/
def createGroupChildren (env : Env) (x y scale : ℚ) :
    List SlideElement → BuildResult
  | [] => ([], none)
  | child :: rest =>
    match createElementAt env child (x / scale + child.props.x)
        (y / scale + child.props.y) scale with
    | (ns, some err) => (ns, some err)
    | (ns, none) =>
      let r := createGroupChildren env x y scale rest
      (ns ++ r.1, r.2)

end

/-- createElement as called on a top-level element: positions come from the
element itself. -/
def createElement (env : Env) (element : SlideElement) (scale : ℚ) :
    BuildResult :=
  createElementAt env element element.props.x element.props.y scale

/-- createElements from the source: materializes the elements in order,
catching and logging any thrown error so the loop continues with the next
element. -/
def createElements (env : Env) (elements : List SlideElement) (scale : ℚ) :
    List Node :=
  match elements with
  | [] => []
  | e :: rest => (createElement env e scale).1 ++ createElements env rest scale

/-- A slide, mirroring the Slide interface. -/
structure Slide where
  index : ℤ := 0
  elements : List SlideElement

/-- The page size field: each dimension is the optional magnitude of the
optional width and height objects (the unit string is never read). -/
structure PageSize where
  width : Option ℚ := none
  height : Option ℚ := none

/-- A presentation, mirroring the Presentation interface. -/
structure Presentation where
  title : String := ""
  pageSize : Option PageSize := none
  slides : List Slide

/-- Messages posted to the UI channel. -/
inductive UIMessage where
  | progress (percent : ℚ) (text : String)
  | complete (slideCount : ℕ)
  | error (message : String)
deriving DecidableEq, Repr

/-- EMU-to-pixel conversion from the source. -/
def emuToPixels (emu : ℚ) : ℚ := emu / 914400 * 72

/-- The progress percent emitted before slide i of n is created. -/
def progressPercent (i n : ℕ) : ℚ := 60 + ((i : ℚ) / (n : ℚ)) * 35

/-- The progress text emitted before slide i of n is created. -/
def progressText (i n : ℕ) : String :=
  s!"Creating slide {i + 1} of {n}..."

/-- importPresentation from the source (the fixed 1920x1080 target variant):
with zero slides it posts a single error message and creates nothing;
otherwise it computes the uniform aspect-preserving fit scale, then per
slide posts a progress message and creates one 1920x1080 frame holding the
materialized elements, and finally posts a completion message. The result
pairs the posted messages, in order, with the created top-level frames. -/
def importPresentation (env : Env) (presentation : Presentation) :
    List UIMessage × List Node :=
  let slides := presentation.slides
  let totalSlides := slides.length
  if totalSlides = 0 then
    ([UIMessage.error "No slides found in presentation"], [])
  else
    let targetWidth : ℚ := 1920
    let targetHeight : ℚ := 1080
    let originalWidth := emuToPixels
      (orQ (presentation.pageSize.bind PageSize.width) 9144000)
    let originalHeight := emuToPixels
      (orQ (presentation.pageSize.bind PageSize.height) 5143500)
    let scale := min (targetWidth / originalWidth) (targetHeight / originalHeight)
    let spacing : ℚ := 100
    let results := slides.enum.map (fun pair =>
      let i := pair.1
      (UIMessage.progress (progressPercent i totalSlides)
         (progressText i totalSlides),
       Node.mk { kind := .frame, name := s!"Slide {i + 1}",
                 x := (i : ℚ) * (targetWidth + spacing), y := 0,
                 width := targetWidth, height := targetHeight,
                 fills := [Paint.solid ⟨1, 1, 1⟩] }
         (createElements env pair.2.elements scale)))
    (results.map Prod.fst ++ [UIMessage.complete totalSlides],
     results.map Prod.snd)

/-- A trivial host environment for concrete instantiations: nothing loads. -/
def env0 : Env :=
  { loads := fun _ => false, imageData := fun _ => none,
    imageOk := fun _ => false, sqrtQ := fun _ => 0, atan2Q := fun _ _ => 0 }

/-- A host environment where exactly Arial Regular is available. -/
def envArial : Env :=
  { loads := fun f => decide (f = ⟨"Arial", "Regular"⟩),
    imageData := fun _ => none, imageOk := fun _ => false,
    sqrtQ := fun _ => 0, atan2Q := fun _ _ => 0 }

/-- A shape element used by the C1 counterexample: authored 10 by 10 with
scaleX 1 and scaleY 2. -/
def elemC1 : ElemProps :=
  { etype := "shape", width := 10, height := 10, scaleX := 1, scaleY := 2 }

/-- Claim C1, counterexample: at scaleX = 1, scaleY = 2, rawWidth = 10 and
fit scale 1 the code computes effective width 10, not the claimed
max(1, rawWidth times the absolute values of both scale factors) = 20. -/
theorem effWidth_claim_counterexample :
    ¬ (effWidth elemC1 1
        = max 1 (elemC1.width * |elemC1.scaleX| * |elemC1.scaleY| * 1)) := by
  norm_num [effWidth, elemC1]

theorem createShape_head_dims (env : Env) (p : ElemProps)
    (x y width height scale : ℚ) :
    ((createShape env p x y width height scale).1.head?.map
      (fun n => (n.props.width, n.props.height))) = some (width, height) := by
  unfold createShape
  dsimp only
  split
  · cases hct : createTextForShape env p x y width height scale with
    | mk tn err => simp [Node.props]
  · simp [Node.props]

/-- Claim C1, amended: the effective width is max(1, rawWidth times the
absolute authored scaleX times the fit scale) and the effective height is
max(1, rawHeight times the absolute authored scaleY times the fit scale);
each dimension uses only its own axis scale factor, the factors are
multiplied before the floor clamp, both results are at least 1 regardless
of zero or negative authored scale, and a shape element is materialized at
exactly these dimensions. -/
theorem effective_dims_amended (env : Env) (p : ElemProps)
    (cs : List SlideElement) (s : ℚ) :
    effWidth p s = max 1 (p.width * |p.scaleX| * s)
    ∧ effHeight p s = max 1 (p.height * |p.scaleY| * s)
    ∧ 1 ≤ effWidth p s
    ∧ 1 ≤ effHeight p s
    ∧ (p.etype = "shape" →
        ((createElement env (.mk p cs) s).1.head?.map
          (fun n => (n.props.width, n.props.height)))
          = some (effWidth p s, effHeight p s)) := by
  refine ⟨rfl, rfl, le_max_left 1 _, le_max_left 1 _, fun h => ?_⟩
  unfold createElement createElementAt
  simp only [SlideElement.props, SlideElement.children, h]
  simp [createShape_head_dims]

/-- A shape element with zero and negative authored scale, for the C1 witness. -/
def elemClamp : ElemProps :=
  { etype := "shape", width := 10, height := 10, scaleX := 0, scaleY := -1 }

/-- Closed witness for the amended claim C1: a zero-scale shape element is
still materialized with both dimensions clamped (here to 1 and 10). -/
theorem effective_dims_amended_witness :
    ((createElement env0 (.mk elemClamp []) 1).1.head?.map
      (fun n => (n.props.width, n.props.height)))
      = some (effWidth elemClamp 1, effHeight elemClamp 1) :=
  (effective_dims_amended env0 elemClamp [] 1).2.2.2.2 rfl

/-- Sequences child build results the way a loop over awaited calls does:
nodes accumulate until the first thrown error, which aborts the rest. -/
def seqResults : List BuildResult → BuildResult
  | [] => ([], none)
  | (ns, some err) :: _ => (ns, some err)
  | (ns, none) :: rest =>
    let r := seqResults rest
    (ns ++ r.1, r.2)

theorem createGroupChildren_eq_seq (env : Env) (gx gy s : ℚ) (hs : s ≠ 0)
    (cs : List SlideElement) :
    createGroupChildren env (gx * s) (gy * s) s cs
      = seqResults (cs.map (fun c =>
          createElementAt env c (gx + c.props.x) (gy + c.props.y) s)) := by
  induction cs with
  | nil => rfl
  | cons child rest ih =>
    rw [createGroupChildren, mul_div_cancel_right₀ gx hs,
      mul_div_cancel_right₀ gy hs]
    cases hc : createElementAt env child (gx + child.props.x)
        (gy + child.props.y) s with
    | mk ns err =>
      cases err with
      | some e => simp [seqResults, hc]
      | none => simp [seqResults, hc, ih]

/-- The group element of the C4 concrete example: origin (100, 50). -/
def groupAt100_50 (children : List SlideElement) : SlideElement :=
  .mk { etype := "group", x := 100, y := 50 } children

/-- The child shape of the C4 concrete example: local offset (10, 10). -/
def childShape10_10 : SlideElement :=
  .mk { etype := "shape", x := 10, y := 10, width := 20, height := 20 } []

/-- Claim C4: a group materializes each child by re-dispatching it at the
group origin plus the child local offset, with the single fit scale applied
exactly once inside that dispatch; a group with zero children creates no
nodes; and concretely a group at (100, 50) holding a shape at local
(10, 10) with scale 1 places that shape at absolute (110, 60). -/
theorem createGroup_offsets (env : Env) (p : ElemProps)
    (cs : List SlideElement) (s : ℚ) (hg : p.etype = "group") (hs : s ≠ 0) :
    createElement env (.mk p cs) s
      = seqResults (cs.map (fun c =>
          createElementAt env c (p.x + c.props.x) (p.y + c.props.y) s))
    ∧ (cs = [] → createElement env (.mk p cs) s = ([], none))
    ∧ ((createElement env (groupAt100_50 [childShape10_10]) 1).1.map
        (fun n => (n.props.x, n.props.y))) = [(110, 60)] := by
  have hmain : createElement env (.mk p cs) s
      = seqResults (cs.map (fun c =>
          createElementAt env c (p.x + c.props.x) (p.y + c.props.y) s)) := by
    unfold createElement
    simp only [SlideElement.props]
    rw [createElementAt]
    simp only [hg]
    norm_num
    cases cs with
    | nil => simp [seqResults]
    | cons child rest =>
      simp only [List.isEmpty_cons, Bool.false_eq_true, if_false]
      exact createGroupChildren_eq_seq env p.x p.y s hs (child :: rest)
  refine ⟨hmain, ?_, ?_⟩
  · intro h
    subst h
    simpa [seqResults] using hmain
  · simp only [createElement, groupAt100_50, childShape10_10,
      SlideElement.props]
    rw [createElementAt]
    norm_num
    rw [createGroupChildren]
    simp only [SlideElement.props]
    rw [createElementAt]
    norm_num [createShape, createGroupChildren, seqResults, Node.props,
      effWidth, effHeight]
    rw [if_neg (by decide : ¬("group" : String) = "shape"),
      if_neg (by decide : ¬("group" : String) = "image"),
      if_neg (by decide : ¬("group" : String) = "line"),
      if_neg (by decide : ¬("group" : String) = "table")]
    simp [Node.props]

/-- Closed witness for claim C4: the concrete group example evaluated at a
trivial environment. -/
theorem createGroup_offsets_witness :
    ((createElement env0 (groupAt100_50 [childShape10_10]) 1).1.map
      (fun n => (n.props.x, n.props.y))) = [(110, 60)] :=
  (createGroup_offsets env0 { etype := "group", x := 100, y := 50 }
    [childShape10_10] 1 rfl (by norm_num)).2.2

/-- Claim C7: the top-level element loop catches a thrown materialization
error and keeps going, so the created nodes are always the concatenation of
the own nodes of every element, and an element that throws still leaves the loop
processing all the elements after it. -/
theorem createElements_failure_isolation (env : Env) (s : ℚ) :
    (∀ es, createElements env es s
        = (es.map (fun e => (createElement env e s).1)).flatten)
    ∧ (∀ e es err, (createElement env e s).2 = some err →
        createElements env (e :: es) s
          = (createElement env e s).1 ++ createElements env es s) := by
  constructor
  · intro es
    induction es with
    | nil => rfl
    | cons e rest ih => simp [createElements, ih]
  · intro e es err _
    rfl

/-- A shape element whose text forces a font load that fails in env0, so
materializing it throws. -/
def elemFailingFont : SlideElement :=
  .mk { etype := "shape", width := 5, height := 5,
        text := some { runs := [{ text := "Hello", fontFamily := "X",
                                  fontWeight := 400 }] } } []

/-- Closed witness for claim C7: an element that throws (its font cannot be
resolved at all) still lets the following sibling be materialized. -/
theorem createElements_failure_isolation_witness :
    createElements env0 [elemFailingFont, childShape10_10] 1
      = (createElement env0 elemFailingFont 1).1
        ++ createElements env0 [childShape10_10] 1 :=
  (createElements_failure_isolation env0 1).2 elemFailingFont
    [childShape10_10] "Failed to load font" (by rfl)

/-- Claim C9: when the concatenation of the text runs of a shape trims to the
empty string, text materialization is skipped entirely: no text node is
created and no error is raised. -/
theorem createTextForShape_skip_empty (env : Env) (p : ElemProps)
    (x y width height scale : ℚ) (tc : TextContent)
    (htext : p.text = some tc)
    (hempty : jsTrim (String.join (tc.runs.map TextRun.text)) = "") :
    createTextForShape env p x y width height scale = ([], none) := by
  unfold createTextForShape
  rw [htext]
  dsimp only
  rcases hr : tc.runs with _ | ⟨fr, rest⟩
  · rfl
  · rw [hr] at hempty
    simp only [List.map_cons] at hempty
    simp [hempty]

/-- A shape element whose runs concatenate to whitespace only. -/
def elemBlankText : ElemProps :=
  { etype := "shape",
    text := some { runs := [{ text := "  " }, { text := "\t\n" }] } }

/-- Closed witness for claim C9: whitespace-only runs produce no text node. -/
theorem createTextForShape_skip_empty_witness :
    createTextForShape env0 elemBlankText 0 0 5 5 1 = ([], none) :=
  createTextForShape_skip_empty env0 elemBlankText 0 0 5 5 1
    { runs := [{ text := "  " }, { text := "\t\n" }] } rfl (by rfl)

/-- Claim C8: an image whose nonempty URL key has no entry in the image
data mapping gets the fixed neutral gray placeholder named for a load
failure; one whose payload fails the data-URI match gets the gray error
placeholder; the placeholder sits at the transformed position and size with
fill 0.9 gray; and the image materializer never raises. -/
theorem createImage_placeholder_degradation (env : Env) (element : ElemProps)
    (x y width height : ℚ) (u : String)
    (hurl : element.imageUrl = some u) (hne : u ≠ "") :
    ((env.imageData u = none ∨ env.imageData u = some "") →
        createImage env element x y width height
          = ([placeholderNode x y width height "Image (failed to load)"], none))
    ∧ (∀ d, env.imageData u = some d → d ≠ "" → parseDataUri d = none →
        createImage env element x y width height
          = ([placeholderNode x y width height "Image (error)"], none))
    ∧ (∀ anyElement : ElemProps,
        (createImage env anyElement x y width height).2 = none)
    ∧ (∀ name, (placeholderNode x y width height name).props.fills
          = [Paint.solid ⟨9/10, 9/10, 9/10⟩]
        ∧ ((placeholderNode x y width height name).props.x,
           (placeholderNode x y width height name).props.y,
           (placeholderNode x y width height name).props.width,
           (placeholderNode x y width height name).props.height)
          = (x, y, width, height)) := by
  refine ⟨?_, ?_, ?_, fun name => ⟨rfl, rfl⟩⟩
  · intro h
    unfold createImage
    rw [hurl]
    dsimp only
    rw [if_neg hne]
    rcases h with h | h
    · rw [h]
    · rw [h]
      simp
  · intro d hd hdne hparse
    unfold createImage
    rw [hurl]
    dsimp only
    rw [if_neg hne, hd]
    dsimp only
    rw [if_neg hdne]
    dsimp only
    rw [hparse]
  · intro anyElement
    unfold createImage
    rcases h2 : anyElement.imageUrl with _ | u2
    · rfl
    · dsimp only
      by_cases hu : u2 = ""
      · simp [hu]
      · rw [if_neg hu]
        rcases hd : (match env.imageData u2 with
            | some d => if d = "" then none else some d
            | none => none) with _ | d
        · rw [hd]
        · rw [hd]
          dsimp only
          rcases hp : parseDataUri d with _ | pr
          · rfl
          · rcases pr with ⟨m, pay⟩
            dsimp only
            by_cases hok : env.imageOk pay <;> simp [hok]

/-- An environment whose image mapping holds a malformed payload for "img". -/
def envImgBad : Env :=
  { loads := fun _ => false,
    imageData := fun u => if u = "img" then some "notadata" else none,
    imageOk := fun _ => false, sqrtQ := fun _ => 0, atan2Q := fun _ _ => 0 }

/-- The image element with URL key "img". -/
def elemImg : ElemProps := { etype := "image", imageUrl := some "img" }

/-- Closed witness for claim C8: a malformed payload degrades to the gray
error placeholder. -/
theorem createImage_placeholder_degradation_witness :
    createImage envImgBad elemImg 1 2 3 4
      = ([placeholderNode 1 2 3 4 "Image (error)"], none) :=
  (createImage_placeholder_degradation envImgBad elemImg 1 2 3 4 "img"
    rfl (by decide)).2.1 "notadata" rfl (by decide) (by rfl)

/-- Claim C10: an image element with an absent or empty imageUrl produces
no node at all and no error, and any image materialization that does
produce a node had a nonempty URL key. -/
theorem createImage_no_url (env : Env) (element : ElemProps)
    (x y width height : ℚ)
    (h : element.imageUrl = none ∨ element.imageUrl = some "") :
    createImage env element x y width height = ([], none)
    ∧ (∀ anyElement : ElemProps,
        (createImage env anyElement x y width height).1 ≠ [] →
        ∃ u, anyElement.imageUrl = some u ∧ u ≠ "") := by
  constructor
  · rcases h with h | h
    · unfold createImage
      rw [h]
    · unfold createImage
      rw [h]
      simp
  · intro anyElement hne2
    unfold createImage at hne2
    rcases h2 : anyElement.imageUrl with _ | u2
    · rw [h2] at hne2
      simp at hne2
    · refine ⟨u2, rfl, fun hu => ?_⟩
      rw [h2, hu] at hne2
      simp at hne2

/-- The image element with no URL. -/
def elemImgNoUrl : ElemProps := { etype := "image" }

/-- Closed witness for claim C10: no URL, no node, no error. -/
theorem createImage_no_url_witness :
    createImage env0 elemImgNoUrl 0 0 5 5 = ([], none) :=
  (createImage_no_url env0 elemImgNoUrl 0 0 5 5 (Or.inl rfl)).1

/-- Claim C5: table materialization uses the grid shape (2 rows, 3 columns
here) rather than the declared rowCount and columnCount fields, raises no
error when the default font loads, produces exactly one table frame whose
rectangle cells partition the box uniformly: six cells, each width/3 by
height/2, cell (row, col) at (col * width/3, row * height/2). -/
theorem createTable_grid_partition (env : Env) (p : ElemProps)
    (x y width height scale : ℚ) (a b c d e f : String)
    (hrows : p.rows = some [[a, b, c], [d, e, f]])
    (hfont : (loadFont env.loads "Arial" 400 false).isSome) :
    (createTable env p x y width height scale).2 = none
    ∧ (createTable env p x y width height scale).1.length = 1
    ∧ (((createTable env p x y width height scale).1.flatMap
        (fun fr => fr.children.filter (fun n => n.props.kind == NodeKind.rect))).map
        (fun n => (n.props.x, n.props.y, n.props.width, n.props.height)))
      = [(0, 0, width / 3, height / 2),
         (width / 3, 0, width / 3, height / 2),
         (2 * (width / 3), 0, width / 3, height / 2),
         (0, height / 2, width / 3, height / 2),
         (width / 3, height / 2, width / 3, height / 2),
         (2 * (width / 3), height / 2, width / 3, height / 2)]
    ∧ (∀ rc cc, createTable env { p with rowCount := rc, columnCount := cc }
        x y width height scale = createTable env p x y width height scale) := by
  rcases hf : loadFont env.loads "Arial" 400 false with _ | fn
  · rw [hf] at hfont
    simp at hfont
  · have hred : ∀ q : ElemProps, q.rows = some [[a, b, c], [d, e, f]] →
        createTable env q x y width height scale
          = createTable env p x y width height scale := by
      intro q hq
      unfold createTable
      rw [hq, hrows]
    refine ⟨?_, ?_, ?_, fun rc cc => hred _ hrows⟩
    · unfold createTable
      rw [hrows, hf]
      simp
    · unfold createTable
      rw [hrows, hf]
      simp
    · unfold createTable
      rw [hrows, hf]
      simp [List.range_succ, cellAt, Node.props, Node.children]
      split_ifs <;> simp [Node.props]

/-- The table element of the C5 witness: a 2 by 3 grid with some blank
cells and deliberately wrong declared counts. -/
def pTable : ElemProps :=
  { etype := "table", rows := some [["a", "", "c"], ["", "e", ""]],
    rowCount := some 7, columnCount := some 9 }

/-- Closed witness for claim C5: the 2 by 3 grid in a 30 by 20 box yields
six uniform cells despite the declared 7 by 9 counts. -/
theorem createTable_grid_partition_witness :
    ((createTable envArial pTable 0 0 30 20 1).1.flatMap
      (fun fr => fr.children.filter (fun n => n.props.kind == NodeKind.rect))).map
      (fun n => (n.props.x, n.props.y, n.props.width, n.props.height))
      = [(0, 0, 30 / 3, 20 / 2), (30 / 3, 0, 30 / 3, 20 / 2),
         (2 * (30 / 3), 0, 30 / 3, 20 / 2), (0, 20 / 2, 30 / 3, 20 / 2),
         (30 / 3, 20 / 2, 30 / 3, 20 / 2),
         (2 * (30 / 3), 20 / 2, 30 / 3, 20 / 2)] :=
  (createTable_grid_partition envArial pTable 0 0 30 20 1 "a" "" "c" "" "e" ""
    rfl (by rfl)).2.2.1

/-- Claim C6: with an empty slide list the orchestrator emits exactly one
terminal error event and creates no frames; otherwise it emits one progress
event per slide followed by exactly one completion event carrying the slide
count, creates exactly one frame per slide, and the progress percents are
strictly increasing across slides. -/
theorem importPresentation_events (env : Env) (presentation : Presentation) :
    (presentation.slides.length = 0 →
      importPresentation env presentation
        = ([UIMessage.error "No slides found in presentation"], []))
    ∧ (0 < presentation.slides.length →
        (importPresentation env presentation).1
          = (List.range presentation.slides.length).map
              (fun i => UIMessage.progress
                (progressPercent i presentation.slides.length)
                (progressText i presentation.slides.length))
            ++ [UIMessage.complete presentation.slides.length]
        ∧ (importPresentation env presentation).2.length
            = presentation.slides.length
        ∧ (∀ i j, i < j → j < presentation.slides.length →
            progressPercent i presentation.slides.length
              < progressPercent j presentation.slides.length)) := by
  constructor
  · intro h
    unfold importPresentation
    simp [h]
  · intro h
    have hne : presentation.slides.length ≠ 0 := Nat.pos_iff_ne_zero.mp h
    refine ⟨?_, ?_, ?_⟩
    · unfold importPresentation
      rw [if_neg hne]
      simp only [List.map_map]
      conv_rhs => rw [← List.enum_map_fst presentation.slides, List.map_map]
      rfl
    · unfold importPresentation
      rw [if_neg hne]
      simp
    · intro i j hij hj
      have hi : (i : ℚ) < (j : ℚ) := by exact_mod_cast hij
      have hn : (0 : ℚ) < (presentation.slides.length : ℚ) := by exact_mod_cast h
      unfold progressPercent
      have hdiv : (i : ℚ) / (presentation.slides.length : ℚ)
          < (j : ℚ) / (presentation.slides.length : ℚ) :=
        div_lt_div_of_pos_right hi hn
      nlinarith [hdiv]

/-- A two-slide presentation with empty slides, for the C6 witness. -/
def pres2 : Presentation :=
  { slides := [{ elements := [] }, { elements := [] }] }

/-- Closed witness for claim C6: the two-slide presentation emits two
progress events then one completion event carrying slide count 2. -/
theorem importPresentation_events_witness :
    (importPresentation env0 pres2).1
      = (List.range pres2.slides.length).map
          (fun i => UIMessage.progress
            (progressPercent i pres2.slides.length)
            (progressText i pres2.slides.length))
        ++ [UIMessage.complete pres2.slides.length] :=
  ((importPresentation_events env0 pres2).2 (by decide)).1
